import Mathlib

/-!
Verification of the `tls_requests` HTTP client library: a shallow Lean
embedding of its rotation subsystem, redirect state machine and response
handling, with theorems checking the natural-language specification
against the embedded code.

Embedded sources:
- `tls_requests/models/headers.py` (class `Headers`)
- `tls_requests/models/rotators.py` (`BaseRotator`, `ProxyRotator`,
  `TLSIdentifierRotator`, `HeaderRotator`)
- `tls_requests/models/urls.py` (`URL`, `Proxy`)
- `tls_requests/models/response.py` (`Response`)
- `tls_requests/client.py` (`BaseClient._rebuild_redirect_method`,
  `BaseClient._rebuild_redirect_url`, `BaseClient._rebuild_redirect_request`,
  `Client._send` / `AsyncClient._send`, `Response.raise_for_status`)

Modelling conventions:
- Python floats are modelled as rationals (`ℚ`).
- `random.choice` and the weighted sampler draw via an oracle index
  argument; the drawn distribution is not modelled.
- `uuid.uuid4()` is modelled by a caller-supplied fresh identifier.
- The external `idna` package and `urllib.parse.urlparse` are modelled by
  simplified pure functions over ASCII strings (documented inline).
- Python byte strings are modelled as `String`.
- In-place mutation is modelled by explicit state passing: a method that
  mutates `self` returns the updated value.
-/

namespace TLSRequests

/-! ### Character-list string helpers

All string manipulation is done over `String.data` (a `List Char`) with
plain structural recursion, mirroring the Python string operations used by
the embedded code (`str.lower`, `str.strip`, `str.lstrip`,
`str.split(sep, 1)`, `str.split(sep)`, containment tests). -/

/-- Python `str.lower()` for the ASCII strings the library manipulates. -/
def pyLower (s : String) : String := ⟨s.data.map Char.toLower⟩

/-- Python `str.strip()`: drop leading and trailing whitespace. -/
def pyStrip (s : String) : String :=
  ⟨((s.data.dropWhile Char.isWhitespace).reverse.dropWhile Char.isWhitespace).reverse⟩

/-- Python `str.lstrip()`: drop leading whitespace. -/
def pyLStrip (s : String) : String := ⟨s.data.dropWhile Char.isWhitespace⟩

/-- Split at the first occurrence of `c`: `some (before, after)`, or `none`
when `c` does not occur. -/
def splitFirstAux (c : Char) : List Char → Option (List Char × List Char)
  | [] => none
  | x :: xs =>
    if x = c then some ([], xs)
    else
      match splitFirstAux c xs with
      | some ab => some (x :: ab.1, ab.2)
      | none => none

/-- Python `s.split(c, 1)` when `c` occurs: the text before and after the
first occurrence. -/
def splitFirst (s : String) (c : Char) : Option (String × String) :=
  (splitFirstAux c s.data).map fun ab => (⟨ab.1⟩, ⟨ab.2⟩)

/-- Split at the last occurrence of `c` (`str.rpartition` without the
separator), or `none` when `c` does not occur. -/
def rsplitFirst (s : String) (c : Char) : Option (String × String) :=
  (splitFirstAux c s.data.reverse).map fun ab => (⟨ab.2.reverse⟩, ⟨ab.1.reverse⟩)

/-- Python `s.split(c)`: all fields, empty fields preserved. -/
def splitAllAux (c : Char) : List Char → List (List Char)
  | [] => [[]]
  | x :: xs =>
    let r := splitAllAux c xs
    if x = c then [] :: r
    else
      match r with
      | a :: rest => (x :: a) :: rest
      | [] => [[x]]

/-- Python `s.split(c)` on strings. -/
def splitAll (s : String) (c : Char) : List String :=
  (splitAllAux c s.data).map fun cs => ⟨cs⟩

/-- Whether the character list contains the substring `"://"`.  Models the
Python test `"://" in url`. -/
def hasSchemeSep : List Char → Bool
  | ':' :: '/' :: '/' :: _ => true
  | _ :: rest => hasSchemeSep rest
  | [] => false

/-- Parse a non-empty all-digit character list as a natural number. -/
def digitsToNat? (cs : List Char) : Option Nat :=
  if cs ≠ [] ∧ cs.all Char.isDigit then
    some (cs.foldl (fun n c => 10 * n + (c.toNat - 48)) 0)
  else none

/-- Python `float(s)` restricted to plain decimal literals
`[+-]digits[.digits]`; other accepted float syntax (exponents, `inf`,
leading or trailing dots) is not needed by the embedded call sites. -/
def parseDecimal? (s : String) : Option ℚ :=
  let (sign, body) : ℚ × List Char :=
    match s.data with
    | '-' :: rest => (-1, rest)
    | '+' :: rest => (1, rest)
    | cs => (1, cs)
  match splitAllAux '.' body with
  | [intPart] => (digitsToNat? intPart).map fun n => sign * n
  | [intPart, fracPart] =>
    match digitsToNat? intPart, digitsToNat? fracPart with
    | some n, some f => some (sign * ((n : ℚ) + (f : ℚ) / (10 ^ fracPart.length)))
    | _, _ => none
  | _ => none

/-! ### Headers (`tls_requests/models/headers.py`)

`Headers` stores `_items : List[Tuple[str, List[str]]]` — a normalized key
together with the list of values held under it.  The default alias is
`lower`, so `_normalize_key` lowercases.  Values are normalized to lists of
strings; the embedded call sites only ever set single string values. -/

/-- A `Headers` object: its `_items` list. -/
structure HeadersM where
  items : List (String × List String)
deriving DecidableEq, Repr

/-- `Headers._normalize_key` under the default `lower` alias. -/
def normalizeKey (key : String) : String := pyLower key

/-- `Headers(dict)`: `_prepare_items` over a mapping, each value a single
string — normalize each key and wrap the value in a singleton list. -/
def headersOfPairs (raw : List (String × String)) : HeadersM :=
  ⟨raw.map fun kv => (normalizeKey kv.1, [kv.2])⟩

/-- `Headers.get`: first entry whose key matches the normalized lookup key,
its values joined with `","`; `none` when absent (the Python default). -/
def HeadersM.get (h : HeadersM) (key : String) : Option String :=
  (h.items.find? fun kv => kv.1 = normalizeKey key).map fun kv =>
    String.intercalate "," kv.2

/-- `key in headers` (`Headers.__contains__`). -/
def HeadersM.hasKey (h : HeadersM) (key : String) : Bool :=
  h.items.any fun kv => kv.1 = normalizeKey key

/-- `Headers.__setitem__` body: find the FIRST entry with the normalized
key and EXTEND its value list with the values not already present; append
a new entry when the key is absent. -/
def setItemAux (k : String) (v : List String) :
    List (String × List String) → List (String × List String)
  | [] => [(k, v)]
  | kv :: rest =>
    if kv.1 = k then
      (kv.1, kv.2 ++ v.filter fun s => !kv.2.contains s) :: rest
    else kv :: setItemAux k v rest

/-- `headers[key] = value` for a single string value. -/
def HeadersM.setItem (h : HeadersM) (key value : String) : HeadersM :=
  ⟨setItemAux (normalizeKey key) [value] h.items⟩

/-- `Headers.copy`: feeds `_items` back through `_prepare_items`, which
re-normalizes each key and rebuilds fresh value lists. -/
def HeadersM.copy (h : HeadersM) : HeadersM :=
  ⟨h.items.map fun kv => (normalizeKey kv.1, kv.2)⟩

/-! ### URLs (`tls_requests/models/urls.py`, class `URL`)

`URL._prepare` runs `urllib.parse.urlparse` on the (left-stripped) input
and stores `scheme`, `host` (IDNA-encoded lowercased hostname), `port`
(string, empty when absent or 0), `path`, `fragment`, `username`,
`password`.  `urlparse` is modelled below for the URL shapes the library
receives: `scheme:`-prefix detection, `//netloc` up to `/`, `?` or `#`,
fragment after the first `#`, query after the first `?`, userinfo before
the last `@` of the netloc, port after the first `:` of the host part.
Query-string merging with `URLParams` is not modelled (a rebuilt redirect
URL carries empty params, so `query` is just the parsed query). -/

/-- The URL attributes `URL._prepare` assigns. -/
structure URLm where
  scheme : String
  host : String
  port : String
  path : String
  query : String
  fragment : String
  username : String
  password : String
deriving DecidableEq, Repr

/-- `URL.netloc`: `host:port` when a port is set, else `host`. -/
def URLm.netloc (u : URLm) : String :=
  if u.port ≠ "" then u.host ++ ":" ++ u.port else u.host

/-- `URL._build(secure=False)`: `scheme://[user:password@]netloc` followed
by the path (joined with `?query` when a query is present) and
`#fragment` when a fragment is present. -/
def URLm.build (u : URLm) : String :=
  let authority :=
    if u.username ≠ "" ∨ u.password ≠ "" then
      u.username ++ ":" ++ u.password ++ "@" ++ u.netloc
    else u.netloc
  u.scheme ++ "://" ++ authority ++
    (if u.query ≠ "" then u.path ++ "?" ++ u.query else u.path) ++
    (if u.fragment ≠ "" then "#" ++ u.fragment else "")

/-- Valid scheme characters after the leading letter (`urlparse`). -/
def isSchemeChar (c : Char) : Bool :=
  c.isAlphanum || c = '+' || c = '-' || c = '.'

/-- `urlparse` scheme detection: `scheme:rest` when the text before the
first `:` is a letter followed by scheme characters; the scheme is
returned lowercased.  Returns `(scheme, remainder)`. -/
def splitScheme (s : String) : String × String :=
  match splitFirst s ':' with
  | some ab =>
    let ok :=
      match ab.1.data with
      | [] => false
      | c :: _ => c.isAlpha && ab.1.data.all isSchemeChar
    if ok then (pyLower ab.1, ab.2) else ("", s)
  | none => ("", s)

/-- `urlparse` netloc detection: present when the remainder starts with
`//`, extending to the next `/`, `?` or `#`.  Returns `(netloc, rest)`. -/
def splitNetloc (s : String) : String × String :=
  match s.data with
  | '/' :: '/' :: rest =>
    let i := (rest.findIdx? fun c => c = '/' || c = '?' || c = '#').getD rest.length
    (⟨rest.take i⟩, ⟨rest.drop i⟩)
  | _ => ("", s)

/-- Model of the external `idna` package: a non-empty ASCII hostname made
of lowercase letters, digits, `.` and `-` encodes to itself; anything else
raises `IDNAError`. -/
def idnaEncode (host : String) : Except String String :=
  if host ≠ "" ∧ (host.data.all fun c => c.isLower || c.isDigit || c = '.' || c = '-') then
    .ok host
  else .error "IDNAError"

/-- `URL._prepare`: left-strip, parse, and extract the stored fields.
Failures (`URLError`) are: a hostname the IDNA model rejects, and an
invalid or out-of-range port. -/
def parseURL (url : String) : Except String URLm :=
  let url := pyLStrip url
  let sp := splitScheme url
  let np := splitNetloc sp.2
  let fp :=
    match splitFirst np.2 '#' with
    | some ab => ab
    | none => (np.2, "")
  let qp :=
    match splitFirst fp.1 '?' with
    | some ab => ab
    | none => (fp.1, "")
  let uh :=
    match rsplitFirst np.1 '@' with
    | some ab => ab
    | none => ("", np.1)
  let userinfo := uh.1
  let hostinfo := uh.2
  let creds :=
    match splitFirst userinfo ':' with
    | some ab => ab
    | none => (userinfo, "")
  let hp :=
    match splitFirst hostinfo ':' with
    | some ab => ab
    | none => (hostinfo, "")
  let hostRes : Except String String :=
    if hp.1 = "" then .ok ""
    else
      match idnaEncode (pyLower hp.1) with
      | .ok h => .ok h
      | .error _ => .error "Invalid IDNA hostname."
  match hostRes with
  | .error e => .error e
  | .ok host =>
    match (if hp.2 = "" then some 0 else digitsToNat? hp.2.data) with
    | none => .error "invalid port. port range must be 0 - 65535."
    | some pn =>
      if 65535 < pn then .error "Port out of range 0-65535. port range must be 0 - 65535."
      else
        .ok { scheme := sp.1, host := host,
              port := if pn ≠ 0 then toString pn else "",
              path := qp.1, query := qp.2, fragment := fp.2,
              username := creds.1, password := creds.2 }

/-! ### Proxy (`tls_requests/models/urls.py`, class `Proxy`)

`Proxy` extends `URL`, restricting schemes, and adds the mutable rotation
statistics `weight`, `region`, `latency`, `success_rate`, `failures`.
The `weight` property reads `self._weight or 1.0`, so a stored 0 reads as
1.0. -/

/-- A `Proxy` object: URL location fields and rotation statistics.
`weightRaw` is the stored `_weight`. -/
structure ProxyM where
  scheme : String
  host : String
  port : String
  username : String
  password : String
  weightRaw : ℚ
  region : Option String
  latency : Option ℚ
  success_rate : Option ℚ
  failures : Int
deriving DecidableEq, Repr

/-- The `Proxy.weight` property: `self._weight or 1.0`. -/
def ProxyM.weight (p : ProxyM) : ℚ :=
  if p.weightRaw = 0 then 1 else p.weightRaw

/-- `Proxy.ALLOWED_SCHEMES`. -/
def ALLOWED_SCHEMES : List String := ["http", "https", "socks5", "socks5h"]

/-- `Proxy.mark_failed`: increment `failures`, decay the weight by 0.85
with floor 0.1 (the weight setter stores the computed value). -/
def ProxyM.mark_failed (p : ProxyM) : ProxyM :=
  { p with failures := p.failures + 1,
           weightRaw := max (1 / 10) (p.weight * (85 / 100)) }

/-- `Proxy.mark_success`: set `latency` when truthy, decrement `failures`
floored at 0, smooth `success_rate` (`(success_rate or 1.0) * 0.95 +
0.05`, so an unset or 0 rate is seeded at 1.0), grow the weight by 1.05
capped at 10.0. -/
def ProxyM.mark_success (p : ProxyM) (latency : Option ℚ) : ProxyM :=
  let p :=
    match latency with
    | some l => if l ≠ 0 then { p with latency := some l } else p
    | none => p
  { p with failures := max 0 (p.failures - 1),
           success_rate := some
             ((match p.success_rate with
               | none => 1
               | some s => if s = 0 then 1 else s) * (95 / 100) + 5 / 100),
           weightRaw := min 10 (p.weight * (105 / 100)) }

/-- `Proxy.__init__` composed with `Proxy._prepare`: strip, default the
scheme to `http://` when `"://"` is absent, parse as a URL, and reject a
scheme outside `ALLOWED_SCHEMES` (`ProxyError`).  `_weight` is
`weight or 1.0`. -/
def proxyBuild (url : String) (weight : ℚ) (region : Option String) :
    Except String ProxyM :=
  let url := pyStrip url
  let url := if hasSchemeSep url.data then url else "http://" ++ url
  match parseURL url with
  | .error _ => .error "Invalid proxy."
  | .ok u =>
    if ALLOWED_SCHEMES.contains (pyLower u.scheme) then
      .ok { scheme := u.scheme, host := u.host, port := u.port,
            username := u.username, password := u.password,
            weightRaw := if weight = 0 then 1 else weight,
            region := region, latency := none, success_rate := none,
            failures := 0 }
    else .error "Invalid proxy scheme."

/-- `Proxy.from_string` with the default `|` separator: `url|weight|region`
with the weight falling back to 1.0 when float parsing fails and the
region left unset when missing or empty. -/
def proxyFromString (raw : String) : Except String ProxyM :=
  let raw := pyStrip raw
  if raw = "" then .error "Empty proxy string."
  else
    let parts := (splitAll raw '|').map pyStrip
    let url := parts.headD ""
    let weight : ℚ :=
      match parts.get? 1 with
      | some w => if w ≠ "" then (parseDecimal? w).getD 1 else 1
      | none => 1
    let region : Option String :=
      match parts.get? 2 with
      | some rg => if rg ≠ "" then some rg else none
      | none => none
    let url := if hasSchemeSep url.data then url else "http://" ++ url
    proxyBuild url weight region

/-! ### Rotators (`tls_requests/models/rotators.py`)

`BaseRotator` owns `items`, a `strategy` and an internal iterator.
`_rebuild_iterator` restarts the iterator from the head of the current
item list, so the round-robin cycle position is modelled by a `cursor`
index into `items` (taken modulo the length), reset to 0 whenever
`_rebuild_iterator` runs, and unused under the `random` strategy (whose
`_iterator` is `None`).  `random.choice` and the weighted generator draw
via an oracle index argument; which index the oracle yields is the model
of the randomness, the drawn distribution is not modelled.  The
thread lock and asyncio lock serialize calls; in this sequential model a
call is one step, so the locks need no representation. -/

/-- The rotation strategies. -/
inductive Strategy where
  | round_robin
  | random
  | weighted
deriving DecidableEq, Repr

/-- A `BaseRotator`: items, strategy and the modelled iterator cursor. -/
structure Rotator (T : Type) where
  items : List T
  strategy : Strategy
  cursor : Nat

/-- `BaseRotator.__init__`: store the items and strategy and run
`_rebuild_iterator` (cursor 0). -/
def mkBaseRotator (items : List T) (strategy : Strategy) : Rotator T :=
  { items := items, strategy := strategy, cursor := 0 }

/-- `BaseRotator.next`: error on an empty rotator; `random.choice` under
`random`; advance the cycle under `round_robin`; an oracle draw under
`weighted`.  Returns the drawn item and the rotator state after the
call. -/
def Rotator.next (r : Rotator T) (randIdx : Nat) :
    Except String (T × Rotator T) :=
  if hlen : r.items.length = 0 then .error "Rotator is empty."
  else
    have hpos : 0 < r.items.length := Nat.pos_of_ne_zero hlen
    match r.strategy with
    | .random => .ok (r.items.get ⟨randIdx % r.items.length, Nat.mod_lt _ hpos⟩, r)
    | .round_robin =>
      .ok (r.items.get ⟨r.cursor % r.items.length, Nat.mod_lt _ hpos⟩,
           { r with cursor := r.cursor + 1 })
    | .weighted => .ok (r.items.get ⟨randIdx % r.items.length, Nat.mod_lt _ hpos⟩, r)

/-- `anext` has the identical body under the asyncio lock. -/
def Rotator.anext (r : Rotator T) (randIdx : Nat) :
    Except String (T × Rotator T) :=
  if hlen : r.items.length = 0 then .error "Rotator is empty."
  else
    have hpos : 0 < r.items.length := Nat.pos_of_ne_zero hlen
    match r.strategy with
    | .random => .ok (r.items.get ⟨randIdx % r.items.length, Nat.mod_lt _ hpos⟩, r)
    | .round_robin =>
      .ok (r.items.get ⟨r.cursor % r.items.length, Nat.mod_lt _ hpos⟩,
           { r with cursor := r.cursor + 1 })
    | .weighted => .ok (r.items.get ⟨randIdx % r.items.length, Nat.mod_lt _ hpos⟩, r)

/-- A run of `n` successive `next()` calls (no mutation between calls);
`oracle` supplies the random draw of each remaining-count step. -/
def Rotator.nextRun (oracle : Nat → Nat) :
    Rotator T → Nat → Except String (List T × Rotator T)
  | r, 0 => .ok ([], r)
  | r, n + 1 =>
    match r.next (oracle n) with
    | .error e => .error e
    | .ok xr =>
      match Rotator.nextRun oracle xr.2 n with
      | .error e => .error e
      | .ok lr => .ok (xr.1 :: lr.1, lr.2)

/-- `BaseRotator.add`: append the item, then `_rebuild_iterator`. -/
def Rotator.add (r : Rotator T) (item : T) : Rotator T :=
  { r with items := r.items ++ [item], cursor := 0 }

/-- `BaseRotator.remove`: keep the items not equal to `item`, then
`_rebuild_iterator`.  Total — it never raises. -/
def Rotator.remove [DecidableEq T] (r : Rotator T) (item : T) : Rotator T :=
  { r with items := r.items.filter (fun i => decide (i ≠ item)), cursor := 0 }

/-- `BaseRotator.aremove`: the identical body under the asyncio lock. -/
def Rotator.aremove [DecidableEq T] (r : Rotator T) (item : T) : Rotator T :=
  { r with items := r.items.filter (fun i => decide (i ≠ item)), cursor := 0 }

/-- One line of the text-file branch of `from_file`:
`line.split("#", 1)[0].strip()`. -/
def stripComment (line : String) : String :=
  pyStrip (match splitFirst line '#' with
    | some ab => ab.1
    | none => line)

/-- `BaseRotator.from_file` on a newline-delimited text source: strip
comments, skip blank lines, convert each remaining line through the
subclass `rebuild_item`, drop rejected (None) entries, and construct via
`cls(valid_items, strategy)`. -/
def fromLines (rebuild : String → Option T) (mk : List T → Strategy → Rotator T)
    (lines : List String) (strategy : Strategy) : Rotator T :=
  let contents := ((lines.map stripComment).filter fun s => s ≠ "")
  mk ((contents.map rebuild).filterMap id) strategy

/-- `BaseRotator.from_file` on a list source: convert every entry through
`rebuild_item`, drop rejected entries, construct via
`cls(valid_items, strategy)`. -/
def fromList (rebuild : α → Option T) (mk : List T → Strategy → Rotator T)
    (source : List α) (strategy : Strategy) : Rotator T :=
  mk ((source.map rebuild).filterMap id) strategy

/-- The built-in TLS identifier templates (`TLS_IDENTIFIER_TEMPLATES`). -/
def TLS_IDENTIFIER_TEMPLATES : List String := [
    "chrome_120",
    "chrome_124",
    "chrome_131",
    "chrome_133",
    "firefox_120",
    "firefox_123",
    "firefox_132",
    "firefox_133",
    "safari_16_0",
    "safari_ios_16_0",
    "safari_ios_17_0",
    "safari_ios_18_0",
    "safari_ios_18_5"
]

/-- The built-in user agents (`USER_AGENTS`). -/
def USER_AGENTS : List String := [
    "Mozilla/5.0 (Windows NT 10.0; Win64; x64) AppleWebKit/537.36 (KHTML, like Gecko) Chrome/120.0.0.0 Safari/537.36",
    "Mozilla/5.0 (Windows NT 10.0; Win64; x64) AppleWebKit/537.36 (KHTML, like Gecko) Chrome/121.0.0.0 Safari/537.36",
    "Mozilla/5.0 (Windows NT 11.0; Win64; x64) AppleWebKit/537.36 (KHTML, like Gecko) Chrome/120.0.0.0 Safari/537.36",
    "Mozilla/5.0 (Macintosh; Intel Mac OS X 10_15_7) AppleWebKit/537.36 (KHTML, like Gecko) Chrome/120.0.0.0 Safari/537.36",
    "Mozilla/5.0 (Macintosh; Intel Mac OS X 10_15_7) AppleWebKit/537.36 (KHTML, like Gecko) Chrome/121.0.0.0 Safari/537.36",
    "Mozilla/5.0 (Macintosh; Intel Mac OS X 14_2_1) AppleWebKit/537.36 (KHTML, like Gecko) Chrome/120.0.0.0 Safari/537.36",
    "Mozilla/5.0 (X11; Linux x86_64) AppleWebKit/537.36 (KHTML, like Gecko) Chrome/120.0.0.0 Safari/537.36",
    "Mozilla/5.0 (X11; Linux x86_64) AppleWebKit/537.36 (KHTML, like Gecko) Chrome/121.0.0.0 Safari/537.36",
    "Mozilla/5.0 (Windows NT 10.0; Win64; x64; rv:121.0) Gecko/20100101 Firefox/121.0",
    "Mozilla/5.0 (Macintosh; Intel Mac OS X 10.15; rv:121.0) Gecko/20100101 Firefox/121.0",
    "Mozilla/5.0 (X11; Linux x86_64; rv:121.0) Gecko/20100101 Firefox/121.0",
    "Mozilla/5.0 (Windows NT 10.0; Win64; x64; rv:122.0) Gecko/20100101 Firefox/122.0",
    "Mozilla/5.0 (Macintosh; Intel Mac OS X 10_15_7) AppleWebKit/605.1.15 (KHTML, like Gecko) Version/17.2 Safari/605.1.15",
    "Mozilla/5.0 (Macintosh; Intel Mac OS X 14_2_1) AppleWebKit/605.1.15 (KHTML, like Gecko) Version/17.2 Safari/605.1.15",
    "Mozilla/5.0 (iPhone; CPU iPhone OS 17_2 like Mac OS X) AppleWebKit/605.1.15 (KHTML, like Gecko) Version/17.2 Mobile/15E148 Safari/604.1",
    "Mozilla/5.0 (iPad; CPU OS 17_2 like Mac OS X) AppleWebKit/605.1.15 (KHTML, like Gecko) Version/17.2 Mobile/15E148 Safari/604.1",
    "Mozilla/5.0 (Windows NT 10.0; Win64; x64) AppleWebKit/537.36 (KHTML, like Gecko) Chrome/120.0.0.0 Safari/537.36 Edg/120.0.0.0",
    "Mozilla/5.0 (Macintosh; Intel Mac OS X 10_15_7) AppleWebKit/537.36 (KHTML, like Gecko) Chrome/120.0.0.0 Safari/537.36 Edg/120.0.0.0",
    "Mozilla/5.0 (Linux; Android 14; SM-G998B) AppleWebKit/537.36 (KHTML, like Gecko) Chrome/120.0.0.0 Mobile Safari/537.36",
    "Mozilla/5.0 (Linux; Android 14; SM-S918B) AppleWebKit/537.36 (KHTML, like Gecko) Chrome/121.0.0.0 Mobile Safari/537.36",
    "Mozilla/5.0 (iPhone; CPU iPhone OS 17_1 like Mac OS X) AppleWebKit/605.1.15 (KHTML, like Gecko) Version/17.1 Mobile/15E148 Safari/604.1",
    "Mozilla/5.0 (Linux; Android 15; SM-S931B Build/AP3A.240905.015.A2; wv) AppleWebKit/537.36 (KHTML, like Gecko) Version/4.0 Chrome/127.0.6533.103 Mobile Safari/537.36",
    "Mozilla/5.0 (Linux; Android 14; SM-S928B/DS) AppleWebKit/537.36 (KHTML, like Gecko) Chrome/120.0.6099.230 Mobile Safari/537.36",
    "Mozilla/5.0 (Linux; Android 14; SM-F956U) AppleWebKit/537.36 (KHTML, like Gecko) Version/4.0 Chrome/80.0.3987.119 Mobile Safari/537.36",
    "Mozilla/5.0 (Linux; Android 13; SM-S911U) AppleWebKit/537.36 (KHTML, like Gecko) Chrome/110.0.0.0 Mobile Safari/537.36",
    "Mozilla/5.0 (Linux; Android 13; SM-S901B) AppleWebKit/537.36 (KHTML, like Gecko) Chrome/112.0.0.0 Mobile Safari/537.36",
    "Mozilla/5.0 (Linux; Android 13; SM-S908U) AppleWebKit/537.36 (KHTML, like Gecko) Chrome/111.0.0.0 Mobile Safari/537.36",
    "Mozilla/5.0 (Linux; Android 13; SM-G991B) AppleWebKit/537.36 (KHTML, like Gecko) Chrome/112.0.0.0 Mobile Safari/537.36",
    "Mozilla/5.0 (Linux; Android 13; SM-G998U) AppleWebKit/537.36 (KHTML, like Gecko) Chrome/112.0.0.0 Mobile Safari/537.36",
    "Mozilla/5.0 (Linux; Android 14; Pixel 9 Pro Build/AD1A.240418.003; wv) AppleWebKit/537.36 (KHTML, like Gecko) Version/4.0 Chrome/124.0.6367.54 Mobile Safari/537.36",
    "Mozilla/5.0 (Linux; Android 14; Pixel 9 Build/AD1A.240411.003.A5; wv) AppleWebKit/537.36 (KHTML, like Gecko) Version/4.0 Chrome/124.0.6367.54 Mobile Safari/537.36",
    "Mozilla/5.0 (Linux; Android 15; Pixel 8 Pro Build/AP4A.250105.002; wv) AppleWebKit/537.36 (KHTML, like Gecko) Version/4.0 Chrome/132.0.6834.163 Mobile Safari/537.36",
    "Mozilla/5.0 (Linux; Android 15; Pixel 8 Build/AP4A.250105.002; wv) AppleWebKit/537.36 (KHTML, like Gecko) Version/4.0 Chrome/132.0.6834.163 Mobile Safari/537.36",
    "Mozilla/5.0 (Linux; Android 13; Pixel 7 Pro) AppleWebKit/537.36 (KHTML, like Gecko) Chrome/112.0.0.0 Mobile Safari/537.36",
    "Mozilla/5.0 (Linux; Android 13; Pixel 7) AppleWebKit/537.36 (KHTML, like Gecko) Chrome/112.0.0.0 Mobile Safari/537.36",
    "Mozilla/5.0 (Linux; Android 15; moto g - 2025 Build/V1VK35.22-13-2; wv) AppleWebKit/537.36 (KHTML, like Gecko) Version/4.0 Chrome/132.0.6834.163 Mobile Safari/537.36",
    "Mozilla/5.0 (Linux; Android 13; 23129RAA4G Build/TKQ1.221114.001; wv) AppleWebKit/537.36 (KHTML, like Gecko) Version/4.0 Chrome/116.0.0.0 Mobile Safari/537.36",
    "Mozilla/5.0 (Linux; Android 15; 24129RT7CC Build/AP3A.240905.015.A2; wv) AppleWebKit/537.36 (KHTML, like Gecko) Version/4.0 Chrome/130.0.6723.86 Mobile Safari/537.36",
    "Mozilla/5.0 (Linux; Android 12; HBP-LX9 Build/HUAWEIHBP-L29; wv) AppleWebKit/537.36 (KHTML, like Gecko) Version/4.0 Chrome/99.0.4844.88 Mobile Safari/537.36",
    "Mozilla/5.0 (Linux; U; Android 12; zh-Hans-CN; ADA-AL00 Build/HUAWEIADA-AL00) AppleWebKit/537.36 (KHTML, like Gecko) Version/4.0 Chrome/100.0.4896.58 Quark/6.11.2.531 Mobile Safari/537.36",
    "Mozilla/5.0 (Linux; Android 12; PSD-AL00 Build/HUAWEIPSD-AL00; wv) AppleWebKit/537.36 (KHTML, like Gecko) Version/4.0 Chrome/99.0.4844.88 Mobile Safari/537.36",
    "Mozilla/5.0 (Linux; Android 14; 24030PN60G Build/UKQ1.231003.002; wv) AppleWebKit/537.36 (KHTML, like Gecko) Version/4.0 Chrome/122.0.6261.119 Mobile Safari/537.36",
    "Mozilla/5.0 (Linux; Android 10; VOG-L29) AppleWebKit/537.36 (KHTML, like Gecko) Chrome/112.0.0.0 Mobile Safari/537.36",
    "Mozilla/5.0 (Linux; Android 10; MAR-LX1A) AppleWebKit/537.36 (KHTML, like Gecko) Chrome/112.0.0.0 Mobile Safari/537.36"
]

/-- The built-in header templates (`HEADER_TEMPLATES`): one header set per
user agent. -/
def HEADER_TEMPLATES : List HeadersM :=
  USER_AGENTS.map fun ua =>
    headersOfPairs [("accept", "*/*"), ("connection", "keep-alive"),
                    ("accept-encoding", "gzip, deflate, br, zstd"),
                    ("User-Agent", ua)]

/-- `ProxyRotator.rebuild_item` on a string entry: `Proxy.from_string`
with any exception turned into `None`.  (`Proxy` and dict entries are
passed through `Proxy`/`Proxy.from_dict` in the source; the claims only
exercise string entries.) -/
def ProxyRotator.rebuild_item (item : String) : Option ProxyM :=
  match proxyFromString item with
  | .ok p => some p
  | .error _ => none

/-- `ProxyRotator` uses the inherited `BaseRotator.__init__`. -/
def ProxyRotator.build (items : List ProxyM) (strategy : Strategy) : Rotator ProxyM :=
  mkBaseRotator items strategy

/-- `ProxyRotator.from_file` with an explicit strategy. -/
def ProxyRotator.fromFileWith (source : List String) (strategy : Strategy) :
    Rotator ProxyM :=
  fromList ProxyRotator.rebuild_item ProxyRotator.build source strategy

/-- `ProxyRotator.from_file(source)` with the `strategy` argument left
unspecified: `from_file` declares `strategy="random"`. -/
def ProxyRotator.fromFile (source : List String) : Rotator ProxyM :=
  ProxyRotator.fromFileWith source .random

/-- `TLSIdentifierRotator.rebuild_item`: strings pass through unchanged
(non-strings are rejected; the model input is already a string). -/
def TLSIdentifierRotator.rebuild_item (item : String) : Option String :=
  some item

/-- `TLSIdentifierRotator.__init__(items, strategy)`: an empty or missing
item list falls back to `TLS_IDENTIFIER_TEMPLATES`
(`items or TLS_IDENTIFIER_TEMPLATES`). -/
def TLSIdentifierRotator.build (items : List String) (strategy : Strategy) :
    Rotator String :=
  mkBaseRotator (if items.isEmpty then TLS_IDENTIFIER_TEMPLATES else items) strategy

/-- `TLSIdentifierRotator()` direct construction with `strategy` left
unspecified: the subclass `__init__` declares `strategy="round_robin"`. -/
def TLSIdentifierRotator.mkDefault (items : List String) : Rotator String :=
  TLSIdentifierRotator.build items .round_robin

/-- `TLSIdentifierRotator.from_file` with an explicit strategy: the
inherited classmethod ends in `cls(valid_items, strategy)`, so the
strategy is always passed explicitly to `__init__`. -/
def TLSIdentifierRotator.fromFileWith (source : List String) (strategy : Strategy) :
    Rotator String :=
  fromList TLSIdentifierRotator.rebuild_item TLSIdentifierRotator.build source strategy

/-- `TLSIdentifierRotator.from_file(source)` with the `strategy` argument
left unspecified: the inherited `from_file` declares `strategy="random"`
and passes it on. -/
def TLSIdentifierRotator.fromFile (source : List String) : Rotator String :=
  TLSIdentifierRotator.fromFileWith source .random

/-- `HeaderRotator.rebuild_item`: build `Headers` from the raw mapping
(never fails on a well-typed mapping). -/
def HeaderRotator.rebuild_item (item : List (String × String)) : Option HeadersM :=
  some (headersOfPairs item)

/-- `HeaderRotator.__init__(items, strategy)`: an empty or missing item
list falls back to `HEADER_TEMPLATES`. -/
def HeaderRotator.build (items : List HeadersM) (strategy : Strategy) :
    Rotator HeadersM :=
  mkBaseRotator (if items.isEmpty then HEADER_TEMPLATES else items) strategy

/-- `HeaderRotator.from_file` with an explicit strategy. -/
def HeaderRotator.fromFileWith (source : List (List (String × String)))
    (strategy : Strategy) : Rotator HeadersM :=
  fromList HeaderRotator.rebuild_item HeaderRotator.build source strategy

/-- `HeaderRotator.from_file(source)` with the `strategy` argument left
unspecified (`strategy="random"`). -/
def HeaderRotator.fromFile (source : List (List (String × String))) :
    Rotator HeadersM :=
  HeaderRotator.fromFileWith source .random

/-- `HeaderRotator.next(user_agent=...)`: draw via the base `next`, take a
copy, and when `user_agent` is truthy (neither `None` nor empty) run
`headers_copy["User-Agent"] = user_agent`. -/
def HeaderRotator.next (r : Rotator HeadersM) (user_agent : Option String)
    (randIdx : Nat) : Except String (HeadersM × Rotator HeadersM) :=
  match r.next randIdx with
  | .error e => .error e
  | .ok hr =>
    let headers_copy := hr.1.copy
    let headers_copy :=
      match user_agent with
      | some ua => if ua ≠ "" then headers_copy.setItem "User-Agent" ua else headers_copy
      | none => headers_copy
    .ok (headers_copy, hr.2)

/-- `ProxyRotator._update_proxy_stats`: delegate to `mark_success` or
`mark_failed` on the proxy. -/
def updateProxyStats (p : ProxyM) (success : Bool) (latency : Option ℚ) : ProxyM :=
  if success then p.mark_success latency else p.mark_failed

/-- `ProxyRotator.mark_result` (and `amark_result`, identical under the
asyncio lock): update the proxy stats in place, then rebuild the weighted
sampler when the strategy is `weighted`.  Returns the updated proxy and
rotator. -/
def ProxyRotator.mark_result (r : Rotator ProxyM) (p : ProxyM) (success : Bool)
    (latency : Option ℚ) : ProxyM × Rotator ProxyM :=
  (updateProxyStats p success latency,
   if r.strategy = .weighted then { r with cursor := 0 } else r)

/-! ### Responses (`tls_requests/models/response.py`) -/

/-- `StatusCodes.MOVED_PERMANENTLY`. -/
def MOVED_PERMANENTLY : Nat := 301

/-- `StatusCodes.FOUND`. -/
def FOUND : Nat := 302

/-- `StatusCodes.SEE_OTHER`. -/
def SEE_OTHER : Nat := 303

/-- `StatusCodes.TEMPORARY_REDIRECT`. -/
def TEMPORARY_REDIRECT : Nat := 307

/-- `StatusCodes.PERMANENT_REDIRECT`. -/
def PERMANENT_REDIRECT : Nat := 308

/-- `REDIRECT_STATUS`: the five redirect status codes. -/
def REDIRECT_STATUS : List Nat :=
  [MOVED_PERMANENTLY, FOUND, SEE_OTHER, TEMPORARY_REDIRECT, PERMANENT_REDIRECT]

/-- A `Response` as the redirect machinery reads it: status code, headers
and body bytes.  (`history` is threaded separately by the send loop and
assigned to the returned response; cookies, elapsed time and streaming are
not inspected by any claim.) -/
structure ResponseM where
  status_code : Nat
  headers : HeadersM
  body : String
deriving DecidableEq, Repr

/-- `Response.is_redirect`: a `Location` header is present AND the status
is one of `REDIRECT_STATUS`. -/
def ResponseM.is_redirect (r : ResponseM) : Bool :=
  r.headers.hasKey "Location" && REDIRECT_STATUS.contains r.status_code

/-- `Response.raise_for_status`: raises `HTTPError` for status < 100
("TLS Client Error"), 4xx ("Client Error") and 5xx ("Server Error");
otherwise returns the response.  The interpolated reason/url text of the
message is elided. -/
def raiseForStatus (r : ResponseM) : Except String ResponseM :=
  if r.status_code < 100 then .error "TLS Client Error"
  else if 400 ≤ r.status_code ∧ r.status_code < 500 then .error "Client Error"
  else if 500 ≤ r.status_code ∧ r.status_code < 600 then .error "Server Error"
  else .ok r

/-- `Response.from_tls_response._parse_response_body`: an empty or missing
body yields empty bytes; a byte-mode body of a response with status > 0 is
base64-decoded (last comma-separated chunk), raising `Base64DecodeError`
when decoding fails; otherwise the text is UTF-8 encoded as-is.  The
base64 decoder itself is an external oracle. -/
def parseResponseBody (b64decode : String → Option String)
    (is_byte_response : Bool) (status : Nat) (value : Option String) :
    Except String String :=
  match value with
  | some v =>
    if v ≠ "" then
      if is_byte_response ∧ 0 < status then
        match b64decode (((splitAll v ',').getLast?).getD v) with
        | some decoded => .ok decoded
        | none => .error "Could not decode the base64 string into bytes."
      else .ok v
    else .ok ""
  | none => .ok ""

/-- `Response.from_tls_response`: build the `Response` from the engine
reply fields (status, headers, body).  The response id and protocol
bookkeeping fields are not inspected by any claim. -/
def fromTLSResponse (b64decode : String → Option String) (status : Nat)
    (headers : List (String × String)) (body : Option String)
    (is_byte_response : Bool) : Except String ResponseM :=
  match parseResponseBody b64decode is_byte_response status body with
  | .error e => .error e
  | .ok bs => .ok { status_code := status, headers := headersOfPairs headers, body := bs }

/-! ### The redirect state machine (`tls_requests/client.py`) -/

/-- The client `http2` option: `"auto"`, `"http1"`, `"http2"`, `True`,
`False` or `None` (`unset`). -/
inductive ProtocolOpt where
  | auto
  | http1
  | http2
  | boolTrue
  | boolFalse
  | unset
deriving DecidableEq, Repr

/-- The test `self.http2 in ["auto", None]`. -/
def ProtocolOpt.isAutoOrNone : ProtocolOpt → Bool
  | .auto => true
  | .unset => true
  | _ => false

/-- The client state the redirect machinery touches: the `http2` mode and
the engine session id held in `self.config.sessionId`. -/
structure ClientStateM where
  http2 : ProtocolOpt
  sessionId : String
deriving DecidableEq, Repr

/-- A `Request` as the redirect machinery reads it: the (uppercased)
method and the URL.  The headers and cookies the rebuilt request carries
(`request.headers`, `response.cookies`) are not inspected by any claim
and are elided. -/
structure RequestM where
  method : String
  url : URLm
deriving DecidableEq, Repr

/-- The fatal errors of the redirect URL rebuild: `URLError` raised by URL
construction, and `RemoteProtocolError` raised by the client itself. -/
inductive ClientErr where
  | urlErr (msg : String)
  | remoteProtocol (msg : String)
deriving DecidableEq, Repr

/-- `BaseClient._rebuild_redirect_method`: three successive rewrites of
the method variable — 303 and then 302 force a non-HEAD method to GET,
301 forces POST to GET. -/
def rebuildRedirectMethod (status : Nat) (method : String) : String :=
  let m1 := if status = SEE_OTHER ∧ method ≠ "HEAD" then "GET" else method
  let m2 := if status = FOUND ∧ m1 ≠ "HEAD" then "GET" else m1
  if status = MOVED_PERMANENTLY ∧ m2 = "POST" then "GET" else m2

/-- `BaseClient._rebuild_redirect_url`.  `response.headers["Location"]`
returns `None` when the header is absent (Headers.get has a default), and
`URL(None)` raises `URLError("Invalid URL: None")` — the source's
`except KeyError` handler can never fire.  A URL parse failure raises
`URLError` out of the `URL` constructor.  When the parsed target has no
netloc, scheme/host/port are inherited from the request URL.  When the
schemes then differ: a request scheme of `http` silently overwrites the
target scheme with `http`; otherwise mode auto/None destroys the engine
session and stores a fresh session id (`uuid.uuid4()`, supplied here as
`freshId`), and any other mode raises `RemoteProtocolError`.  The final
`if not url.url` guard re-raises only on an empty rebuilt URL string. -/
def rebuildRedirectURL (st : ClientStateM) (freshId : String) (requrl : URLm)
    (locationValue : Option String) : Except ClientErr (URLm × ClientStateM) :=
  match locationValue with
  | none => .error (.urlErr "Invalid URL: None")
  | some loc =>
    match parseURL loc with
    | .error e => .error (.urlErr e)
    | .ok u0 =>
      let u1 :=
        if u0.netloc = "" then
          { u0 with scheme := requrl.scheme, host := requrl.host, port := requrl.port }
        else u0
      let step : Except ClientErr (URLm × ClientStateM) :=
        if u1.scheme ≠ requrl.scheme then
          if requrl.scheme = "http" then .ok ({ u1 with scheme := requrl.scheme }, st)
          else if st.http2.isAutoOrNone then .ok (u1, { st with sessionId := freshId })
          else .error (.remoteProtocol
            "Switching remote scheme from HTTP/2 to HTTP/1 is not supported.")
        else .ok (u1, st)
      match step with
      | .error e => .error e
      | .ok ust =>
        if ust.1.build = "" then .error (.remoteProtocol "Invalid URL in Location headers.")
        else .ok ust

/-- `BaseClient._rebuild_redirect_request`: the rebuilt request has the
rewritten method and URL (headers and cookies carried along are
elided). -/
def rebuildRedirectRequest (st : ClientStateM) (freshId : String)
    (request : RequestM) (response : ResponseM) :
    Except ClientErr (RequestM × ClientStateM) :=
  match rebuildRedirectURL st freshId request.url (response.headers.get "Location") with
  | .error e => .error e
  | .ok ust =>
    .ok ({ method := rebuildRedirectMethod response.status_code request.method,
           url := ust.1 }, ust.2)

/-- The exceptions `_send` can raise.  Each carries the caller-visible
history list — `_send` appends to the shared list in place, so the hops
completed before the raise remain observable on it. -/
inductive SendErr where
  | protocol (e : ClientErr) (history : List ResponseM)
  | tooManyRedirects (history : List ResponseM)
deriving DecidableEq, Repr

/-- `Client._send` (and the line-for-line identical `AsyncClient._send`,
which differs only by awaiting): dispatch the request through the engine;
when the response is a redirect first rebuild the next request (its
errors propagate even when redirects are not followed), then with
`follow_redirects` raise `TooManyRedirects` unless fewer than
`max_redirects` hops are in the history, append the response and recurse.
A terminal response is returned together with its history.  `engine`
models `session.request` composed with `Response.from_tls_response`;
`freshIds i` supplies the `uuid.uuid4()` used if hop `i` resets the
session. -/
def sendLoop (engine : RequestM → ResponseM) (freshIds : Nat → String)
    (follow_redirects : Bool) (max_redirects : Nat) (st : ClientStateM)
    (request : RequestM) (history : List ResponseM) :
    Except SendErr (ResponseM × List ResponseM) :=
  let response := engine request
  if response.is_redirect then
    match rebuildRedirectRequest st (freshIds history.length) request response with
    | .error e => .error (.protocol e history)
    | .ok nextst =>
      if follow_redirects then
        if _h : history.length < max_redirects then
          sendLoop engine freshIds follow_redirects max_redirects nextst.2 nextst.1
            (history ++ [response])
        else .error (.tooManyRedirects history)
      else .ok (response, history)
  else .ok (response, history)
termination_by max_redirects - history.length
decreasing_by simp only [List.length_append, List.length_cons, List.length_nil]; omega

/-- `AsyncClient._send` shares the body of `Client._send` verbatim. -/
def asendLoop (engine : RequestM → ResponseM) (freshIds : Nat → String)
    (follow_redirects : Bool) (max_redirects : Nat) (st : ClientStateM)
    (request : RequestM) (history : List ResponseM) :
    Except SendErr (ResponseM × List ResponseM) :=
  sendLoop engine freshIds follow_redirects max_redirects st request history

/-! ### Concrete fixtures used to evaluate the theorems

These mirror the repository's own test fixtures (`tests/test_redirects.py`,
`tests/test_rotators.py`). -/

/-- A URL on host `h` with the given path, as `parseURL` produces it. -/
def chainUrl (p : String) : URLm :=
  { scheme := "http", host := "h", port := "", path := p, query := "",
    fragment := "", username := "", password := "" }

/-- Paths of a four-node redirect chain `/0 → /1 → /2 → /3`. -/
def chainPath : Nat → String
  | 0 => "/0"
  | 1 => "/1"
  | 2 => "/2"
  | _ => "/3"

/-- The request of hop `i` in the chain. -/
def chainReq (i : Nat) : RequestM := { method := "GET", url := chainUrl (chainPath i) }

/-- An engine serving the chain: `/0`, `/1`, `/2` answer 302 with a
`Location` pointing at the next path; everything else answers 200. -/
def chainEngine : RequestM → ResponseM := fun rq =>
  if rq.url.path = "/0" then
    { status_code := 302, headers := headersOfPairs [("Location", "http://h/1")], body := "" }
  else if rq.url.path = "/1" then
    { status_code := 302, headers := headersOfPairs [("Location", "http://h/2")], body := "" }
  else if rq.url.path = "/2" then
    { status_code := 302, headers := headersOfPairs [("Location", "http://h/3")], body := "" }
  else { status_code := 200, headers := headersOfPairs [], body := "OK" }

/-- A fresh-uuid oracle for the chain. -/
def chainFresh : Nat → String := fun _ => "fresh-uuid"

/-- A client state with mode auto. -/
def chainState : ClientStateM := { http2 := .auto, sessionId := "session-0" }

/-- A request URL with scheme `https`, for the cross-scheme claims. -/
def httpsUrl : URLm :=
  { scheme := "https", host := "a", port := "", path := "/p", query := "",
    fragment := "", username := "", password := "" }

/-- The parse of `"http://a/x"`. -/
def httpTarget : URLm :=
  { scheme := "http", host := "a", port := "", path := "/x", query := "",
    fragment := "", username := "", password := "" }

/-- A flagged-redirect response whose `Location` hostname the IDNA model
rejects (an underscore, which the real `idna` package also rejects). -/
def badLocResp : ResponseM :=
  { status_code := 302,
    headers := headersOfPairs [("Location", "http://ba_d.com/x")], body := "" }

/-- The header template of the repository's `header_list_fixture`. -/
def uaTemplate : HeadersM :=
  headersOfPairs [("Accept", "application/json"), ("User-Agent", "Test-UA-1")]

/-- A `HeaderRotator` holding that single template (default `random`
strategy, as `HeaderRotator.from_file` builds it). -/
def uaRotator : Rotator HeadersM := mkBaseRotator [uaTemplate] .random

/-- A proxy whose weight sits at the 10.0 cap. -/
def proxyAtCap : ProxyM :=
  { scheme := "http", host := "x", port := "", username := "", password := "",
    weightRaw := 10, region := none, latency := none, success_rate := none,
    failures := 0 }

/-- A proxy with weight 2.0 (the repository's `test_mark_result_weighted`
fixture). -/
def proxyAtTwo : ProxyM :=
  { scheme := "http", host := "x", port := "", username := "", password := "",
    weightRaw := 2, region := none, latency := none, success_rate := none,
    failures := 0 }

/-- A soft local failure: status 0, no headers, no body. -/
def softFailure : ResponseM := { status_code := 0, headers := ⟨[]⟩, body := "" }

/-! ### Claim C1: the redirect method rewrite -/

/-- The method-rewrite rule as claimed: 303 or 302 with a non-HEAD method
gives GET; 301 with POST gives GET; every other case keeps the method. -/
def specRedirectMethod (status : Nat) (method : String) : String :=
  if (status = 303 ∨ status = 302) ∧ method ≠ "HEAD" then "GET"
  else if status = 301 ∧ method = "POST" then "GET"
  else method

/-- C1: for every redirect, `_rebuild_redirect_method` computes the new
method from the original method and the redirect status exactly as
claimed — 303/302 force a non-HEAD method to GET, 301 forces POST to GET,
and every other case (HEAD under 301/302/303, PUT/PATCH/DELETE under 301,
non-redirect statuses) keeps the original method. -/
theorem C1_redirect_method_rewrite (status : Nat) (method : String) :
    rebuildRedirectMethod status method = specRedirectMethod status method := by
  simp only [rebuildRedirectMethod, specRedirectMethod, SEE_OTHER, FOUND,
    MOVED_PERMANENTLY]
  by_cases h3 : status = 303 <;> by_cases h2 : status = 302 <;>
    by_cases h1 : status = 301 <;> by_cases hh : method = "HEAD" <;>
    by_cases hp : method = "POST" <;> simp_all

/-! ### Claim C6: cross-scheme redirect handling -/

/-- A rebuilt URL string always contains `"://"`, so the source's final
`if not url.url` guard never fires. -/
theorem URLm.build_ne_empty (u : URLm) : u.build ≠ "" := by
  intro he
  have h := congrArg String.length he
  simp only [URLm.build, String.length_append] at h
  have h3 : ("://" : String).length = 3 := rfl
  have h0 : ("" : String).length = 0 := rfl
  rw [h3, h0] at h
  omega

/-- C6 counterexample: the claim says a downgrade to plain http is
followed silently, but redirecting `https://a/p` to `http://a/x` with a
pinned HTTP/2 mode raises `RemoteProtocolError`. -/
theorem C6_downgrade_not_silent :
    rebuildRedirectURL { http2 := .http2, sessionId := "s" } "fresh" httpsUrl
        (some "http://a/x") =
      .error (.remoteProtocol
        "Switching remote scheme from HTTP/2 to HTTP/1 is not supported.") := by
  rfl

/-- C6 amended: when the redirect target's scheme differs from the current
request's scheme, the code branches on the CURRENT scheme, not on the
direction of the switch: (a) a current scheme of `http` overwrites the
target's scheme with `http` and follows silently; otherwise — including a
downgrade from `https` to plain `http` — (b) mode auto/unset destroys the
session and stores the fresh session id in the client config, and (c) any
pinned mode raises `RemoteProtocolError`. -/
theorem C6_cross_scheme_behavior (st : ClientStateM) (freshId : String)
    (requrl u0 : URLm) (loc : String)
    (hparse : parseURL loc = .ok u0) (hnet : u0.netloc ≠ "")
    (hdiff : u0.scheme ≠ requrl.scheme) :
    (requrl.scheme = "http" →
      rebuildRedirectURL st freshId requrl (some loc) =
        .ok ({ u0 with scheme := requrl.scheme }, st)) ∧
    (requrl.scheme ≠ "http" → st.http2.isAutoOrNone = true →
      rebuildRedirectURL st freshId requrl (some loc) =
        .ok (u0, { st with sessionId := freshId })) ∧
    (requrl.scheme ≠ "http" → st.http2.isAutoOrNone = false →
      rebuildRedirectURL st freshId requrl (some loc) =
        .error (.remoteProtocol
          "Switching remote scheme from HTTP/2 to HTTP/1 is not supported.")) := by
  refine ⟨fun hhttp => ?_, fun hnothttp hauto => ?_, fun hnothttp hpinned => ?_⟩ <;>
    simp only [rebuildRedirectURL, hparse, if_neg hnet, if_pos hdiff]
  · rw [if_pos hhttp]
    simp [URLm.build_ne_empty]
  · rw [if_neg hnothttp, if_pos hauto]
    simp [URLm.build_ne_empty]
  · rw [if_neg hnothttp]
    simp [hpinned]

/-- C6 amended, evaluated: the auto-mode session reset on the downgrade
`https://a/p → http://a/x`. -/
theorem C6_cross_scheme_behavior_witness :
    rebuildRedirectURL { http2 := ProtocolOpt.auto, sessionId := "s" } "fresh"
        httpsUrl (some "http://a/x") =
      .ok (httpTarget, { http2 := ProtocolOpt.auto, sessionId := "fresh" }) :=
  (C6_cross_scheme_behavior { http2 := ProtocolOpt.auto, sessionId := "s" } "fresh"
      httpsUrl httpTarget "http://a/x" (by rfl) (by decide) (by decide)).2.1
    (by decide) (by decide)

/-! ### Claim C5: missing or unusable Location -/

/-- C5 counterexample: a flagged-redirect response whose `Location` value
yields an unusable URL makes the rebuild raise `URLError` (out of the
`URL` constructor), not `RemoteProtocolError` as claimed. -/
theorem C5_unusable_location_raises_urlerror :
    badLocResp.is_redirect = true ∧
    rebuildRedirectRequest chainState "fresh" (chainReq 0) badLocResp =
      .error (.urlErr "Invalid IDNA hostname.") ∧
    ¬ ∃ msg, rebuildRedirectRequest chainState "fresh" (chainReq 0) badLocResp =
      .error (.remoteProtocol msg) := by
  refine ⟨by decide, by rfl, ?_⟩
  rintro ⟨msg, hmsg⟩
  rw [show rebuildRedirectRequest chainState "fresh" (chainReq 0) badLocResp =
      .error (.urlErr "Invalid IDNA hostname.") from rfl] at hmsg
  simp at hmsg

/-- C5 amended: a missing `Location` value or one whose URL construction
fails makes `_rebuild_redirect_url` raise `URLError` — a fatal `HTTPError`,
but not `RemoteProtocolError`; the error propagates out of `_send`
untreated (the hop never becomes a terminal response); and a response
without a `Location` header is never flagged as a redirect in the first
place, so `_send` returns it as terminal. -/
theorem C5_location_failure_fatal (st : ClientStateM) (fid : String)
    (requrl : URLm) (loc : Option String)
    (hbad : loc = none ∨ ∃ s e, loc = some s ∧ parseURL s = .error e) :
    (∃ msg, rebuildRedirectURL st fid requrl loc = .error (.urlErr msg)) ∧
    (∀ (engine : RequestM → ResponseM) (freshIds : Nat → String)
       (follow : Bool) (maxr : Nat) (req : RequestM) (hist : List ResponseM)
       (e : ClientErr),
        (engine req).is_redirect = true →
        rebuildRedirectRequest st (freshIds hist.length) req (engine req) = .error e →
        sendLoop engine freshIds follow maxr st req hist = .error (.protocol e hist)) ∧
    (∀ r : ResponseM, r.headers.hasKey "Location" = false → r.is_redirect = false) := by
  refine ⟨?_, ?_, ?_⟩
  · rcases hbad with h | ⟨s, e, hs, hparse⟩
    · exact ⟨"Invalid URL: None", by rw [h]; rfl⟩
    · exact ⟨e, by rw [hs]; simp only [rebuildRedirectURL, hparse]⟩
  · intro engine freshIds follow maxr req hist e hred herr
    rw [sendLoop]
    simp only [hred, if_true, herr]
  · intro r h
    simp [ResponseM.is_redirect, h]

/-- C5 amended, evaluated: the unusable-Location fixture raises
`URLError`. -/
theorem C5_location_failure_fatal_witness :
    ∃ msg, rebuildRedirectURL chainState "fresh" (chainReq 0).url
      (some "http://ba_d.com/x") = .error (.urlErr msg) :=
  (C5_location_failure_fatal chainState "fresh" (chainReq 0).url
      (some "http://ba_d.com/x")
      (Or.inr ⟨"http://ba_d.com/x", "Invalid IDNA hostname.", rfl, by rfl⟩)).1

/-! ### Claim C4: default strategy of from_file construction -/

/-- C4 counterexample: `TLSIdentifierRotator.from_file` with `strategy`
left unspecified yields the `random` strategy, not `round_robin` — the
inherited `from_file` declares `strategy="random"` and passes it to the
constructor explicitly, bypassing the subclass default. -/
theorem C4_tls_from_file_is_random :
    (TLSIdentifierRotator.fromFile ["chrome_120"]).strategy = .random ∧
    (TLSIdentifierRotator.fromFile ["chrome_120"]).strategy ≠ .round_robin := by
  exact ⟨rfl, by decide⟩

/-- C4 amended: every rotator built via `from_file` with `strategy` left
unspecified — `ProxyRotator`, `HeaderRotator` AND `TLSIdentifierRotator` —
has effective strategy `random`; the `round_robin` default of
`TLSIdentifierRotator` applies only to direct construction. -/
theorem C4_from_file_default_strategy (psrc : List String)
    (hsrc : List (List (String × String))) (tsrc : List String)
    (items : List String) :
    (ProxyRotator.fromFile psrc).strategy = .random ∧
    (HeaderRotator.fromFile hsrc).strategy = .random ∧
    (TLSIdentifierRotator.fromFile tsrc).strategy = .random ∧
    (TLSIdentifierRotator.mkDefault items).strategy = .round_robin :=
  ⟨rfl, rfl, rfl, rfl⟩

/-! ### Claim C7: the User-Agent override of HeaderRotator.next -/

/-- C7 (code bug): evaluating `HeaderRotator.next(user_agent=...)` at the
repository's own test fixture.  `Headers.__setitem__` EXTENDS the existing
`user-agent` value list instead of replacing it, so the returned copy's
User-Agent is `"Test-UA-1,My-Custom-Bot/1.0"`, not the override — the
repository's `test_next_with_user_agent_override` asserts equality with
the override and fails.  The copy is distinct from the template and the
stored template is unchanged (last conjunct). -/
theorem C7_user_agent_override_appends :
    HeaderRotator.next uaRotator (some "My-Custom-Bot/1.0") 0 =
      .ok (⟨[("accept", ["application/json"]),
             ("user-agent", ["Test-UA-1", "My-Custom-Bot/1.0"])]⟩, uaRotator) ∧
    (HeadersM.get ⟨[("accept", ["application/json"]),
        ("user-agent", ["Test-UA-1", "My-Custom-Bot/1.0"])]⟩ "User-Agent" =
      some "Test-UA-1,My-Custom-Bot/1.0") ∧
    (HeadersM.get ⟨[("accept", ["application/json"]),
        ("user-agent", ["Test-UA-1", "My-Custom-Bot/1.0"])]⟩ "User-Agent" ≠
      some "My-Custom-Bot/1.0") ∧
    uaRotator.items = [uaTemplate] ∧
    uaTemplate.get "User-Agent" = some "Test-UA-1" := by
  refine ⟨by rfl, by rfl, by decide, by rfl, by rfl⟩

/-! ### Claim C9: raise_for_status and soft failures -/

/-- C9 counterexample: `raise_for_status` on a status-0 soft failure
raises `HTTPError` ("TLS Client Error") although 0 is not in 400..599, so
"raises iff 400 <= status < 600" is false. -/
theorem C9_soft_failure_raises :
    raiseForStatus softFailure = .error "TLS Client Error" ∧
    ¬ (400 ≤ softFailure.status_code ∧ softFailure.status_code < 600) := by
  exact ⟨rfl, by decide⟩

/-- C9 amended: `raise_for_status` raises `HTTPError` iff the status is
below 100 (which includes the status-0 soft failure) or in 400..599, and
otherwise returns the response; dispatch itself
(`Response.from_tls_response`) never raises `HTTPError` — a status-0 local
failure is returned as a normal value with `status_code = 0`. -/
theorem C9_raise_for_status_iff (r : ResponseM) (b64 : String → Option String)
    (headers : List (String × String)) (body : Option String) (ibr : Bool) :
    ((∃ msg, raiseForStatus r = .error msg) ↔
      (r.status_code < 100 ∨ (400 ≤ r.status_code ∧ r.status_code < 600))) ∧
    (¬ (r.status_code < 100 ∨ (400 ≤ r.status_code ∧ r.status_code < 600)) →
      raiseForStatus r = .ok r) ∧
    (∃ resp, fromTLSResponse b64 0 headers body ibr = .ok resp ∧
      resp.status_code = 0) := by
  have hnb : ¬ (ibr ∧ 0 < 0) := fun h => absurd h.2 (by omega)
  refine ⟨?_, ?_, ?_⟩
  · unfold raiseForStatus
    split_ifs with h1 h2 h3 <;> simp <;> omega
  · intro h
    unfold raiseForStatus
    split_ifs with h1 h2 h3 <;> first | rfl | (exfalso; omega)
  · cases body with
    | none =>
      exact ⟨{ status_code := 0, headers := headersOfPairs headers, body := "" }, rfl, rfl⟩
    | some v =>
      by_cases hv : v = ""
      · subst hv
        exact ⟨{ status_code := 0, headers := headersOfPairs headers, body := "" }, rfl, rfl⟩
      · refine ⟨{ status_code := 0, headers := headersOfPairs headers, body := v }, ?_, rfl⟩
        simp [fromTLSResponse, parseResponseBody, hv, hnb]

/-! ### Claim C8: proxy weight feedback -/

/-- The fields `mark_success` writes, for any latency argument: the weight
grows by 1.05 capped at 10, `failures` drops floored at 0, and
`success_rate` is smoothed with seed 1.0. -/
theorem mark_success_fields (p : ProxyM) (latency : Option ℚ) :
    (p.mark_success latency).weightRaw = min 10 (p.weight * (105 / 100)) ∧
    (p.mark_success latency).failures = max 0 (p.failures - 1) ∧
    (p.mark_success latency).success_rate = some ((match p.success_rate with
      | none => 1
      | some s => if s = 0 then 1 else s) * (95 / 100) + 5 / 100) := by
  cases latency with
  | none => exact ⟨rfl, rfl, rfl⟩
  | some l =>
    by_cases hl : l = 0 <;> simp [ProxyM.mark_success, ProxyM.weight, hl]

/-- C8 counterexample: from the starting weight 10.0 (the claimed upper
bound, an admissible fixed starting weight), `mark_result(success=True)`
leaves the weight at 10.0 — no strict increase. -/
theorem C8_no_strict_increase_at_cap :
    (updateProxyStats proxyAtCap true none).weight = proxyAtCap.weight ∧
    ¬ proxyAtCap.weight < (updateProxyStats proxyAtCap true none).weight := by
  have hcap : proxyAtCap.weight = 10 := by norm_num [ProxyM.weight, proxyAtCap]
  have hw := (mark_success_fields proxyAtCap none).1
  rw [hcap, min_eq_left (by norm_num)] at hw
  have h1 : (updateProxyStats proxyAtCap true none).weight = 10 := by
    show (ProxyM.mark_success proxyAtCap none).weight = 10
    simp only [ProxyM.weight, hw]
    norm_num
  rw [h1, hcap]
  exact ⟨rfl, lt_irrefl 10⟩

/-- C8 amended: for a proxy with positive weight, a success grows the
weight strictly only while it is below the 10.0 cap (and never above 10.0),
a failure shrinks it strictly only while it is above the 0.1 floor (and
never below 0.1); failures are incremented on failure and decremented
floored at 0 on success, and the success rate is smoothed by
`rate * 0.95 + 0.05` seeded at 1.0 when unset (or stored as 0). -/
theorem C8_weight_update (p : ProxyM) (latency : Option ℚ) (hw : 0 < p.weight) :
    ((updateProxyStats p true latency).weight ≤ 10) ∧
    (p.weight < 10 → p.weight < (updateProxyStats p true latency).weight) ∧
    (1 / 10 ≤ (updateProxyStats p false latency).weight) ∧
    (1 / 10 < p.weight → (updateProxyStats p false latency).weight < p.weight) ∧
    ((updateProxyStats p false latency).failures = p.failures + 1) ∧
    ((updateProxyStats p true latency).failures = max 0 (p.failures - 1)) ∧
    ((updateProxyStats p true latency).success_rate =
      some ((match p.success_rate with
        | none => 1
        | some s => if s = 0 then 1 else s) * (95 / 100) + 5 / 100)) := by
  obtain ⟨hsw, hsf, hsr⟩ := mark_success_fields p latency
  have hupd : updateProxyStats p true latency = p.mark_success latency := rfl
  have hupdf : updateProxyStats p false latency = p.mark_failed := rfl
  have hfw : (p.mark_failed).weightRaw = max (1 / 10) (p.weight * (85 / 100)) := rfl
  have hff : (p.mark_failed).failures = p.failures + 1 := rfl
  have hspos : 0 < min (10 : ℚ) (p.weight * (105 / 100)) :=
    lt_min (by norm_num) (mul_pos hw (by norm_num))
  have hfpos : 0 < max (1 / 10 : ℚ) (p.weight * (85 / 100)) :=
    lt_of_lt_of_le (by norm_num) (le_max_left _ _)
  have weight_of_pos : ∀ x : ProxyM, 0 < x.weightRaw → x.weight = x.weightRaw :=
    fun x h => if_neg (ne_of_gt h)
  have hswpos : 0 < (p.mark_success latency).weightRaw := by rw [hsw]; exact hspos
  have hfwpos : 0 < (p.mark_failed).weightRaw := by rw [hfw]; exact hfpos
  have hswv : (updateProxyStats p true latency).weight =
      min 10 (p.weight * (105 / 100)) := by
    rw [hupd, weight_of_pos _ hswpos, hsw]
  have hfwv : (updateProxyStats p false latency).weight =
      max (1 / 10) (p.weight * (85 / 100)) := by
    rw [hupdf, weight_of_pos _ hfwpos, hfw]
  refine ⟨?_, ?_, ?_, ?_, ?_, ?_, ?_⟩
  · rw [hswv]; exact min_le_left _ _
  · intro h10
    rw [hswv]
    refine lt_min h10 ?_
    have h := mul_lt_mul_of_pos_left (show (1 : ℚ) < 105 / 100 by norm_num) hw
    rw [mul_one] at h
    exact h
  · rw [hfwv]; exact le_max_left _ _
  · intro h01
    rw [hfwv]
    refine max_lt h01 ?_
    have h := mul_lt_mul_of_pos_left (show (85 / 100 : ℚ) < 1 by norm_num) hw
    rw [mul_one] at h
    exact h
  · rw [hupdf]; exact hff
  · rw [hupd]; exact hsf
  · rw [hupd]; exact hsr

/-- C8 amended, evaluated at the repository's weight-2.0 test fixture. -/
theorem C8_weight_update_witness :
    ((updateProxyStats proxyAtTwo true none).weight ≤ 10) ∧
    (proxyAtTwo.weight < 10 → proxyAtTwo.weight <
      (updateProxyStats proxyAtTwo true none).weight) ∧
    (1 / 10 ≤ (updateProxyStats proxyAtTwo false none).weight) ∧
    (1 / 10 < proxyAtTwo.weight → (updateProxyStats proxyAtTwo false none).weight <
      proxyAtTwo.weight) ∧
    ((updateProxyStats proxyAtTwo false none).failures = proxyAtTwo.failures + 1) ∧
    ((updateProxyStats proxyAtTwo true none).failures =
      max 0 (proxyAtTwo.failures - 1)) ∧
    ((updateProxyStats proxyAtTwo true none).success_rate =
      some ((match proxyAtTwo.success_rate with
        | none => 1
        | some s => if s = 0 then 1 else s) * (95 / 100) + 5 / 100)) :=
  C8_weight_update proxyAtTwo none (by norm_num [ProxyM.weight, proxyAtTwo])

/-! ### Claim C10: remove and aremove -/

/-- C10: `remove(x)` (and the identical `aremove(x)`) never raises (it is
a total function), deletes every stored item equal to `x` at once (count
drops to 0), leaves the count of every other item unchanged, preserves
the relative order of the remaining items (the result is a sublist),
leaves the item list unchanged when no stored item equals `x`, and always
rebuilds the internal iterator (cursor reset to 0, strategy kept). -/
theorem C10_remove_behavior {T : Type} [DecidableEq T] (r : Rotator T) (x : T) :
    ((r.remove x).items.count x = 0) ∧
    (∀ y, y ≠ x → (r.remove x).items.count y = r.items.count y) ∧
    ((r.remove x).items.Sublist r.items) ∧
    (x ∉ r.items → (r.remove x).items = r.items) ∧
    ((r.remove x).cursor = 0) ∧
    ((r.remove x).strategy = r.strategy) ∧
    (r.aremove x = r.remove x) := by
  refine ⟨?_, ?_, ?_, ?_, rfl, rfl, rfl⟩
  · simp [Rotator.remove, List.count_eq_zero, List.mem_filter]
  · intro y hy
    simp only [Rotator.remove]
    exact List.count_filter (by simp [hy])
  · exact List.filter_sublist _
  · intro hx
    simp only [Rotator.remove]
    rw [List.filter_eq_self]
    intro a ha
    simp only [ne_eq, decide_not, Bool.not_eq_eq_eq_not, Bool.not_true, decide_eq_false_iff_not]
    intro he
    exact hx (he ▸ ha)

/-! ### Claim C3: round-robin rotation -/

/-- Helper: a round-robin rotator with a non-empty item list serves
`items[(cursor + i) % N]` at the i-th of `k` successive calls and ends
with its cursor advanced by `k` (the oracle is never consulted). -/
theorem nextRun_round_robin {T : Type} (items : List T) (dflt : T)
    (h : items.length ≠ 0) (oracle : Nat → Nat) :
    ∀ k c, Rotator.nextRun oracle ⟨items, .round_robin, c⟩ k =
      .ok ((List.range k).map fun i => items.getD ((c + i) % items.length) dflt,
           ⟨items, .round_robin, c + k⟩) := by
  intro k
  have hpos : 0 < items.length := Nat.pos_of_ne_zero h
  induction k with
  | zero => intro c; simp [Rotator.nextRun]
  | succ k ih =>
    intro c
    have hnext : Rotator.next ⟨items, .round_robin, c⟩ (oracle k) =
        .ok (items.getD (c % items.length) dflt, ⟨items, .round_robin, c + 1⟩) := by
      simp only [Rotator.next, dif_neg h]
      rw [List.getD_eq_getElem items dflt (Nat.mod_lt _ hpos)]
      rfl
    have hr : ((List.range (k + 1)).map
          fun i => items.getD ((c + i) % items.length) dflt) =
        items.getD (c % items.length) dflt ::
          ((List.range k).map fun i => items.getD ((c + 1 + i) % items.length) dflt) := by
      rw [List.range_succ_eq_map, List.map_cons, List.map_map]
      congr 1
      refine List.map_congr_left fun i _ => ?_
      simp only [Function.comp_apply]
      exact congrArg (fun n => items.getD n dflt)
        (congrArg (fun n => n % items.length) (by omega))
    simp only [Rotator.nextRun, hnext, ih (c + 1), hr]
    rw [show c + 1 + k = c + (k + 1) by omega]

/-- C3: a freshly built non-empty round-robin rotator serves, over `2N`
successive `next()` calls, each stored item exactly twice in insertion
order: the first `N` calls return the items in order, the next `N` calls
(continuing from the persisted cursor) return them in order again, the
run of `2N` calls returns `items ++ items`, and every value's visit count
doubles its count among the stored items. -/
theorem C3_round_robin_two_cycles {T : Type} [DecidableEq T] (items : List T)
    (h : items ≠ []) (oracle : Nat → Nat) :
    (Rotator.nextRun oracle (mkBaseRotator items .round_robin) (2 * items.length) =
      .ok (items ++ items, ⟨items, .round_robin, 2 * items.length⟩)) ∧
    (Rotator.nextRun oracle (mkBaseRotator items .round_robin) items.length =
      .ok (items, ⟨items, .round_robin, items.length⟩)) ∧
    (Rotator.nextRun oracle ⟨items, .round_robin, items.length⟩ items.length =
      .ok (items, ⟨items, .round_robin, 2 * items.length⟩)) ∧
    (∀ x, (items ++ items).count x = 2 * items.count x) := by
  have hlen : items.length ≠ 0 := fun hz => h (List.length_eq_zero.mp hz)
  have hpos : 0 < items.length := Nat.pos_of_ne_zero hlen
  have hdflt : ∃ d : T, True := ⟨items.head h, trivial⟩
  obtain ⟨d, -⟩ := hdflt
  have key := nextRun_round_robin items d hlen oracle
  have hone : ((List.range items.length).map
      fun i => items.getD ((0 + i) % items.length) d) = items := by
    refine List.ext_getElem (by simp) fun i h1 h2 => ?_
    simp only [List.getElem_map, List.getElem_range]
    rw [Nat.zero_add, Nat.mod_eq_of_lt h2, List.getD_eq_getElem items d h2]
  have htwo : ((List.range items.length).map
      fun i => items.getD ((items.length + i) % items.length) d) = items := by
    refine List.ext_getElem (by simp) fun i h1 h2 => ?_
    simp only [List.getElem_map, List.getElem_range]
    rw [Nat.add_mod_left, Nat.mod_eq_of_lt h2, List.getD_eq_getElem items d h2]
  have hdouble : ((List.range (2 * items.length)).map
      fun i => items.getD ((0 + i) % items.length) d) = items ++ items := by
    refine List.ext_getElem (by simp; omega) fun i h1 h2 => ?_
    simp only [List.getElem_map, List.getElem_range, Nat.zero_add]
    simp only [List.length_map, List.length_range] at h1
    by_cases hi : i < items.length
    · rw [Nat.mod_eq_of_lt hi, List.getD_eq_getElem items d hi,
        List.getElem_append_left hi]
    · have hge : items.length ≤ i := Nat.le_of_not_lt hi
      have hlt : i - items.length < items.length := by omega
      have hmod : i % items.length = i - items.length := by
        rw [Nat.mod_eq_sub_mod hge, Nat.mod_eq_of_lt hlt]
      rw [hmod, List.getD_eq_getElem items d hlt, List.getElem_append_right hge]
  refine ⟨?_, ?_, ?_, fun x => by rw [List.count_append, Nat.two_mul]⟩
  · rw [show mkBaseRotator items Strategy.round_robin =
        (⟨items, .round_robin, 0⟩ : Rotator T) from rfl, key, hdouble, Nat.zero_add]
  · rw [show mkBaseRotator items Strategy.round_robin =
        (⟨items, .round_robin, 0⟩ : Rotator T) from rfl, key, hone, Nat.zero_add]
  · rw [key, htwo, Nat.two_mul]

/-- C3 evaluated: two full cycles over a three-item rotator. -/
theorem C3_round_robin_two_cycles_witness :
    Rotator.nextRun (fun _ => 0) (mkBaseRotator ["a", "b", "c"] .round_robin) 6 =
      .ok (["a", "b", "c", "a", "b", "c"],
           ⟨["a", "b", "c"], .round_robin, 6⟩) :=
  (C3_round_robin_two_cycles ["a", "b", "c"] (by decide) (fun _ => 0)).1

/-! ### Claim C2: the redirect hop bound -/

/-- Helper: along a chain of `k` redirecting hops (hop `i` is a flagged
redirect whose rebuild yields the request of hop `i+1`) with a non-redirect
terminal at hop `k ≤ M`, `_send` starting at hop `j` with the first `j`
hops already in history returns the terminal response together with the
full `k`-hop history. -/
theorem sendLoop_chain_ok (engine : RequestM → ResponseM) (freshIds : Nat → String)
    (req : Nat → RequestM) (M k : Nat)
    (hred : ∀ i, i < k → (engine (req i)).is_redirect = true)
    (hreb : ∀ i, i < k → ∀ s fid, ∃ s',
        rebuildRedirectRequest s fid (req i) (engine (req i)) = .ok (req (i + 1), s'))
    (hterm : (engine (req k)).is_redirect = false) (hk : k ≤ M) :
    ∀ d j st, j + d = k →
      sendLoop engine freshIds true M st (req j)
          ((List.range j).map fun i => engine (req i)) =
        .ok (engine (req k), (List.range k).map fun i => engine (req i)) := by
  intro d
  induction d with
  | zero =>
    intro j st hj
    have hjk : j = k := by omega
    subst hjk
    rw [sendLoop]
    simp only [hterm, Bool.false_eq_true, if_false]
  | succ d ih =>
    intro j st hj
    have hjk : j < k := by omega
    have hlen : ((List.range j).map fun i => engine (req i)).length = j := by simp
    obtain ⟨st', hst'⟩ := hreb j hjk st (freshIds j)
    have happ : ((List.range j).map fun i => engine (req i)) ++ [engine (req j)] =
        (List.range (j + 1)).map fun i => engine (req i) := by
      rw [List.range_succ, List.map_append, List.map_singleton]
    rw [sendLoop]
    simp only [hred j hjk, if_true, hlen, hst']
    rw [dif_pos (show j < M by omega), happ]
    exact ih (j + 1) st' (by omega)

/-- Helper: along a chain whose first `M + 1` hops are all flagged
redirects with successful rebuilds, `_send` starting at hop `j ≤ M` with
the first `j` hops in history raises `TooManyRedirects` with exactly the
first `M` hops completed in the history. -/
theorem sendLoop_chain_overflow (engine : RequestM → ResponseM)
    (freshIds : Nat → String) (req : Nat → RequestM) (M k : Nat)
    (hred : ∀ i, i < k → (engine (req i)).is_redirect = true)
    (hreb : ∀ i, i < k → ∀ s fid, ∃ s',
        rebuildRedirectRequest s fid (req i) (engine (req i)) = .ok (req (i + 1), s'))
    (hM : M < k) :
    ∀ d j st, j + d = M →
      sendLoop engine freshIds true M st (req j)
          ((List.range j).map fun i => engine (req i)) =
        .error (.tooManyRedirects ((List.range M).map fun i => engine (req i))) := by
  intro d
  induction d with
  | zero =>
    intro j st hj
    have hjk : j = M := by omega
    subst hjk
    have hlen : ((List.range j).map fun i => engine (req i)).length = j := by simp
    obtain ⟨st', hst'⟩ := hreb j (by omega) st (freshIds j)
    rw [sendLoop]
    simp only [hred j (by omega), if_true, hlen, hst']
    rw [dif_neg (lt_irrefl j)]
  | succ d ih =>
    intro j st hj
    have hjk : j < M := by omega
    have hlen : ((List.range j).map fun i => engine (req i)).length = j := by simp
    obtain ⟨st', hst'⟩ := hreb j (by omega) st (freshIds j)
    have happ : ((List.range j).map fun i => engine (req i)) ++ [engine (req j)] =
        (List.range (j + 1)).map fun i => engine (req i) := by
      rw [List.range_succ, List.map_append, List.map_singleton]
    rw [sendLoop]
    simp only [hred j (by omega), if_true, hlen, hst']
    rw [dif_pos hjk, happ]
    exact ih (j + 1) st' (by omega)

/-- C2: along a redirect chain (hop `i` is a flagged redirect rebuilt to
hop `i + 1`), `_send` with `max_redirects = M` starting from an empty
history (a) terminates normally when the chain reaches a non-redirect
response after `k ≤ M` hops, the terminal response carrying exactly the
`k` intermediate redirect responses in hop order, and (b) raises
`TooManyRedirects` when the redirects would require an `(M+1)`-th hop,
with exactly the `M` completed hops in the history — the raising hop was
dispatched but never appended; the bound counts completed hops.
`AsyncClient._send` is the same function (last conjunct). -/
theorem C2_redirect_hop_bound (engine : RequestM → ResponseM)
    (freshIds : Nat → String) (req : Nat → RequestM) (M k : Nat)
    (st : ClientStateM)
    (hred : ∀ i, i < k → (engine (req i)).is_redirect = true)
    (hreb : ∀ i, i < k → ∀ s fid, ∃ s',
        rebuildRedirectRequest s fid (req i) (engine (req i)) = .ok (req (i + 1), s')) :
    (k ≤ M → (engine (req k)).is_redirect = false →
      sendLoop engine freshIds true M st (req 0) [] =
        .ok (engine (req k), (List.range k).map fun i => engine (req i))) ∧
    (M < k →
      sendLoop engine freshIds true M st (req 0) [] =
        .error (.tooManyRedirects ((List.range M).map fun i => engine (req i)))) ∧
    (asendLoop engine freshIds true M st (req 0) [] =
      sendLoop engine freshIds true M st (req 0) []) := by
  refine ⟨fun hk hterm => ?_, fun hM => ?_, rfl⟩
  · have h := sendLoop_chain_ok engine freshIds req M k hred hreb hterm hk k 0 st
      (by omega)
    simpa using h
  · have h := sendLoop_chain_overflow engine freshIds req M k hred hreb hM M 0 st
      (by omega)
    simpa using h

/-- C2 evaluated on the three-hop test chain `/0 → /1 → /2 → /3`: with
the default bound 9 the terminal 200 arrives with a three-hop history;
with bound 2 the third redirect raises with exactly two hops recorded. -/
theorem C2_redirect_hop_bound_witness :
    (sendLoop chainEngine chainFresh true 9 chainState (chainReq 0) [] =
      .ok (chainEngine (chainReq 3),
           [chainEngine (chainReq 0), chainEngine (chainReq 1),
            chainEngine (chainReq 2)])) ∧
    (sendLoop chainEngine chainFresh true 2 chainState (chainReq 0) [] =
      .error (.tooManyRedirects
        [chainEngine (chainReq 0), chainEngine (chainReq 1)])) := by
  have hred : ∀ i, i < 3 → (chainEngine (chainReq i)).is_redirect = true := by decide
  have hreb : ∀ i, i < 3 → ∀ s fid, ∃ s',
      rebuildRedirectRequest s fid (chainReq i) (chainEngine (chainReq i)) =
        .ok (chainReq (i + 1), s') := by
    intro i hi s fid
    interval_cases i <;> exact ⟨s, rfl⟩
  constructor
  · have h := (C2_redirect_hop_bound chainEngine chainFresh chainReq 9 3 chainState
      hred hreb).1 (by omega) (by decide)
    simpa [List.range_succ] using h
  · have h := (C2_redirect_hop_bound chainEngine chainFresh chainReq 2 3 chainState
      hred hreb).2.1 (by omega)
    simpa [List.range_succ] using h

end TLSRequests
